import Mathlib

/-!
Shallow embedding of `src/create_app.py`, a linear provisioning script that
drives a directory-service HTTP API (Microsoft Graph style): it creates an
application registration, adds a client secret, creates a service principal,
optionally resolves and attaches an owner, assigns API permissions, and
finally patches the application's notes field.

The network and the token endpoint are modelled as an environment `Env`:
a token-endpoint response (an association list, as `msal` returns a dict)
and a function from HTTP requests to HTTP responses.  Each Python function
becomes a Lean function returning the list of HTTP requests it issued (its
trace) together with either a result or a raised error.
-/

namespace CreateApp

/-- JSON values, as produced by `r.json()` and serialized from Python
dict/list/str/bool/None payloads.  Numbers are modelled as integers; no
fractional numbers occur anywhere in the script. -/
inductive Json where
  | null : Json
  | bool (b : Bool) : Json
  | num (n : Int) : Json
  | str (s : String) : Json
  | arr (xs : List Json) : Json
  | obj (fields : List (String × Json)) : Json


/-- Association-list lookup used for Python dict access on decoded JSON
objects and on the token-endpoint response. -/
def lookupField : List (String × Json) → String → Option Json
  | [], _ => none
  | (k, v) :: rest, key => if k = key then some v else lookupField rest key

mutual
/-- Python `repr` of a JSON-like value (strings get quoted).  Used by
`pyStr` for containers; only the string case is ever exercised by the
script's realistic data. -/
def pyRepr : Json → String
  | .null => "None"
  | .bool b => cond b "True" "False"
  | .num n => toString n
  | .str s => "'" ++ s ++ "'"
  | .arr xs => "[" ++ pyReprList xs ++ "]"
  | .obj fs => "\x7b" ++ pyReprFields fs ++ "\x7d"

def pyReprList : List Json → String
  | [] => ""
  | [x] => pyRepr x
  | x :: y :: xs => pyRepr x ++ ", " ++ pyReprList (y :: xs)

def pyReprFields : List (String × Json) → String
  | [] => ""
  | [(k, v)] => "'" ++ k ++ "': " ++ pyRepr v
  | (k, v) :: g :: fs => "'" ++ k ++ "': " ++ pyRepr v ++ ", " ++ pyReprFields (g :: fs)
end

/-- Python `str()` of a JSON-like value, as applied by f-string
interpolation (`f"Bearer {token}"`, `f"/applications/{app_object_id}"`). -/
def pyStr : Json → String
  | .str s => s
  | j => pyRepr j

/-- Python truthiness of a JSON-like value (`if not users:`). -/
def pyFalsy : Json → Bool
  | .null => true
  | .bool b => !b
  | .num n => n == 0
  | .str s => s.isEmpty
  | .arr xs => xs.isEmpty
  | .obj fs => fs.isEmpty

/-- Errors the script can raise.  Python raises bare `Exception` objects
with either a formatted string or the raw token-endpoint dict; subscript
and attribute misuse raise their own builtin classes, and `r.json()` on an
undecodable body raises a JSON decode error. -/
inductive Err where
  | exc (msg : String) : Err
  | excData (resp : List (String × Json)) : Err
  | keyError (key : String) : Err
  | typeError : Err
  | indexError : Err
  | attrError : Err
  | jsonDecodeError : Err


/-- An HTTP request as issued through `requests`. -/
structure HttpRequest where
  method : String
  url : String
  headers : List (String × String)
  payload : Option Json
  params : Option (List (String × String))


/-- An HTTP response.  `jsonOpt` is what `r.json()` yields (`none` models a
JSON decode failure, as on an empty body). -/
structure HttpResponse where
  statusCode : Nat
  text : String
  jsonOpt : Option Json


/-- `requests.Response.ok`: true exactly when the status code is below 400. -/
def HttpResponse.ok (r : HttpResponse) : Bool := r.statusCode < 400

/-- The external world: the token endpoint's response dict and the network,
a function from requests to responses. -/
structure Env where
  tokenResp : List (String × Json)
  net : HttpRequest → HttpResponse

/-- The trace of HTTP requests a computation issued, in order. -/
abbrev Trace := List HttpRequest

/-- A computation's outcome: the requests it issued and either a value or a
raised error. -/
abbrev M (α : Type) := Trace × Except Err α

/-- Sequencing of traced computations: on error the continuation never
runs; traces concatenate. -/
def mbind {α β : Type} (x : M α) (f : α → M β) : M β :=
  match x with
  | (t, .error e) => (t, .error e)
  | (t, .ok a) => (t ++ (f a).1, (f a).2)

/-- A pure (non-network) step. -/
def mpure {α : Type} (a : α) : M α := ([], .ok a)

/-- Lift a fallible pure computation (dict indexing etc.) into `M`. -/
def liftE {α : Type} (x : Except Err α) : M α := ([], x)

def GRAPH_BASE : String := "https://graph.microsoft.com/v1.0"

/-- `get_token`: raises `Exception(resp)` when the token-endpoint response
has no `access_token` key, otherwise returns `resp["access_token"]`. -/
def get_token (env : Env) : Except Err Json :=
  match lookupField env.tokenResp "access_token" with
  | none => .error (.excData env.tokenResp)
  | some t => .ok t

/-- Headers attached by `graph_call` and `add_secret`. -/
def authHeaders (token : Json) : List (String × String) :=
  [("Authorization", "Bearer " ++ pyStr token), ("Content-Type", "application/json")]

/-- The request `graph_call` issues for the given token and arguments. -/
def mkReq (token : Json) (method endpoint : String) (payload : Option Json)
    (params : Option (List (String × String))) : HttpRequest :=
  { method := method
    url := GRAPH_BASE ++ endpoint
    headers := authHeaders token
    payload := payload
    params := params }

/-- `graph_call`: acquires a token, issues one request against
`GRAPH_BASE + endpoint`, raises on a non-ok status with a message carrying
method, full URL, status code and body text, decodes the body when
non-empty, and returns an empty dict on an empty body. -/
def graph_call (env : Env) (method endpoint : String) (payload : Option Json)
    (params : Option (List (String × String))) : M Json :=
  match get_token env with
  | .error e => ([], .error e)
  | .ok token =>
    let url := GRAPH_BASE ++ endpoint
    let req := mkReq token method endpoint payload params
    let r := env.net req
    ([req],
      if !r.ok then
        .error (.exc (method ++ " " ++ url ++ " failed: " ++ toString r.statusCode ++ " " ++ r.text))
      else if !r.text.isEmpty then
        match r.jsonOpt with
        | some j => .ok j
        | none => .error .jsonDecodeError
      else .ok (Json.obj []))

/-- Python `d[key]` on a decoded JSON value: `KeyError` when the key is
missing, `TypeError` when the value is not a dict. -/
def Json.index : Json → String → Except Err Json
  | .obj fields, key =>
    match lookupField fields key with
    | some v => .ok v
    | none => .error (.keyError key)
  | _, _ => .error .typeError

/-- Python `d.get(key, default)` (`result.get("value", [])`):
`AttributeError` when the value is not a dict. -/
def Json.dictGet (j : Json) (key : String) (default : Json) : Except Err Json :=
  match j with
  | .obj fields => .ok ((lookupField fields key).getD default)
  | _ => .error .attrError

/-- Python `xs[0]` on a decoded JSON value (`users[0]`). -/
def Json.index0 : Json → Except Err Json
  | .arr (x :: _) => .ok x
  | .arr [] => .error .indexError
  | _ => .error .typeError

/-- JSON serialization of a Python value that is either a string or
`None` (as `os.environ.get` returns). -/
def optStrJson : Option String → Json
  | none => .null
  | some s => .str s

/-- The body `create_app` posts. -/
def createAppBody (display_name : Option String) (redirect_uris : List String)
    (notes_text : Option String) : Json :=
  Json.obj [("displayName", optStrJson display_name),
            ("signInAudience", Json.str "AzureADMyOrg"),
            ("web", Json.obj [("redirectUris", Json.arr (redirect_uris.map Json.str))]),
            ("notes", optStrJson notes_text)]

/-- `create_app`: POST `/applications` with display name, fixed sign-in
audience, redirect URIs and notes. -/
def create_app (env : Env) (display_name : Option String) (redirect_uris : List String)
    (notes_text : Option String) : M Json :=
  graph_call env "POST" "/applications" (some (createAppBody display_name redirect_uris notes_text)) none

/-- The body `add_secret` posts. -/
def addSecretBody : Json :=
  Json.obj [("passwordCredential", Json.obj [("displayName", Json.str "auto-secret")])]

/-- The request `add_secret` issues directly through `requests.post`. -/
def secretReq (token app_object_id : Json) : HttpRequest :=
  { method := "POST"
    url := GRAPH_BASE ++ "/applications/" ++ pyStr app_object_id ++ "/addPassword"
    headers := authHeaders token
    payload := some addSecretBody
    params := none }

/-- `add_secret`: issues its own `requests.post` against
`{GRAPH_BASE}/applications/{app_object_id}/addPassword`, raises
`Exception(r.text)` on a non-ok status, and calls `r.json()`
unconditionally (a decode error on an empty body). -/
def add_secret (env : Env) (app_object_id : Json) : M Json :=
  match get_token env with
  | .error e => ([], .error e)
  | .ok token =>
    let req := secretReq token app_object_id
    let r := env.net req
    ([req],
      if !r.ok then .error (.exc r.text)
      else
        match r.jsonOpt with
        | some j => .ok j
        | none => .error .jsonDecodeError)

/-- The body `create_service_principal` posts. -/
def spBody (appid : Json) : Json :=
  Json.obj [("appId", appid), ("accountEnabled", Json.bool true)]

/-- `create_service_principal`: POST `/servicePrincipals` with the app's
client id and `accountEnabled: true`. -/
def create_service_principal (env : Env) (appid : Json) : M Json :=
  graph_call env "POST" "/servicePrincipals" (some (spBody appid)) none

/-- The query parameters `resolve_user_by_mailnickname` sends. -/
def userParams (mailnickname : String) : List (String × String) :=
  [("$filter", "mailNickname eq '" ++ mailnickname ++ "'"),
   ("$select", "id,displayName,mailNickname")]

/-- `resolve_user_by_mailnickname`: GET `/users` filtered by the alias,
raise when the returned `value` list is empty (Python-falsy), otherwise
return the first element's `id`. -/
def resolve_user_by_mailnickname (env : Env) (mailnickname : String) : M Json :=
  mbind (graph_call env "GET" "/users" none (some (userParams mailnickname))) fun result =>
    liftE (do
      let users ← result.dictGet "value" (Json.arr [])
      if pyFalsy users then
        Except.error (.exc ("No user found with mailNickname='" ++ mailnickname ++ "'"))
      else do
        let u0 ← users.index0
        u0.index "id")

/-- The body `add_owner` posts: a directory-object reference to the owner. -/
def ownerRefBody (owner_object_id : Json) : Json :=
  Json.obj [("@odata.id", Json.str (GRAPH_BASE ++ "/directoryObjects/" ++ pyStr owner_object_id))]

/-- `add_owner`: POST the owner reference to the app's owners collection. -/
def add_owner (env : Env) (app_object_id owner_object_id : Json) : M Json :=
  graph_call env "POST" ("/applications/" ++ pyStr app_object_id ++ "/owners/$ref")
    (some (ownerRefBody owner_object_id)) none

/-- The fixed permission list `add_api_permissions` submits: one `Role`
entry and one `Scope` entry. -/
def permissionsList : List Json :=
  [Json.obj [("id", Json.str "df021288-bdef-4463-88db-98f22de89214"), ("type", Json.str "Role")],
   Json.obj [("id", Json.str "e1fe6dd8-ba31-4d61-89e7-88639da4683d"), ("type", Json.str "Scope")]]

/-- The body `add_api_permissions` submits: the whole
`requiredResourceAccess` value, a single resource entry for the fixed
Microsoft Graph resource app id. -/
def permissionsBody : Json :=
  Json.obj [("requiredResourceAccess", Json.arr
    [Json.obj [("resourceAppId", Json.str "00000003-0000-0000-c000-000000000000"),
               ("resourceAccess", Json.arr permissionsList)]])]

/-- `add_api_permissions`: PATCH the application with the fixed
`requiredResourceAccess` body. -/
def add_api_permissions (env : Env) (app_object_id : Json) : M Json :=
  graph_call env "PATCH" ("/applications/" ++ pyStr app_object_id) (some permissionsBody) none

/-- The body `update_internal_notes` submits. -/
def notesBody (notes : String) : Json := Json.obj [("notes", Json.str notes)]

/-- `update_internal_notes`: PATCH the application's `notes` field. -/
def update_internal_notes (env : Env) (app_object_id : Json) (notes : String) : M Json :=
  graph_call env "PATCH" ("/applications/" ++ pyStr app_object_id) (some (notesBody notes)) none

/-- The environment-sourced configuration read in `__main__`.  `none`
models an unset environment variable. -/
structure Config where
  display_name : Option String
  redirect_uris : Option String
  notes_text : Option String
  owner_mailnickname : Option String

/-- Python `str.split(sep)` for a one-character separator, on the
character list: every separator occurrence cuts, and empty pieces are
kept (`"".split(",") == [""]`). -/
def pySplitAux (sep : Char) : List Char → List Char → List (List Char)
  | [], acc => [acc.reverse]
  | c :: cs, acc =>
    if c = sep then acc.reverse :: pySplitAux sep cs []
    else pySplitAux sep cs (c :: acc)

/-- Python `str.split(sep)` for a one-character separator. -/
def pySplit (s : String) (sep : Char) : List String :=
  (pySplitAux sep s.data []).map fun cs => { data := cs }

/-- Python `str.strip()`: remove leading and trailing whitespace. -/
def pyStrip (s : String) : String :=
  { data := ((s.data.dropWhile Char.isWhitespace).reverse.dropWhile Char.isWhitespace).reverse }

/-- `[u.strip() for u in redirect_uris.split(",") if u.strip()]`: keep the
comma-separated pieces whose strip is nonempty (Python truthiness),
stripped. -/
def redirect_uris_list (redirect_uris : String) : List String :=
  ((pySplit redirect_uris ',').filter (fun u => !(pyStrip u).isEmpty)).map pyStrip

/-- Python truthiness of an optional string (`if OWNER_MAILNICKNAME:`):
both an unset variable and an empty string are falsy. -/
def pyTruthyOptStr : Option String → Bool
  | none => false
  | some s => !s.isEmpty

/-- The conditional owner block of `__main__`: resolve the owner by alias
and add it, or skip both when no alias is configured. -/
def ownerStep (env : Env) (app : Json) (owner : Option String) : M Unit :=
  if pyTruthyOptStr owner then
    mbind (resolve_user_by_mailnickname env (owner.getD "")) fun owner_id =>
    mbind (liftE (app.index "id")) fun app_id =>
    mbind (add_owner env app_id owner_id) fun _ => mpure ()
  else mpure ()

/-- The `__main__` workflow: create the application, add a secret, create
the service principal, conditionally resolve and add the owner, assign the
fixed permissions, and patch the notes to the fixed literal.  Dict
accesses performed by the script (including those inside `print` calls)
are modelled, since a missing key aborts the run at that point. -/
def main_run (env : Env) (cfg : Config) : M Unit :=
  mbind (create_app env cfg.display_name (redirect_uris_list (cfg.redirect_uris.getD ""))
          cfg.notes_text) fun app =>
  mbind (liftE (app.index "appId")) fun _printedAppId =>
  mbind (liftE (app.index "id")) fun app_id =>
  mbind (add_secret env app_id) fun secret =>
  mbind (liftE (secret.index "secretText")) fun _printedSecret =>
  mbind (liftE (app.index "appId")) fun appId =>
  mbind (create_service_principal env appId) fun sp =>
  mbind (liftE (sp.index "id")) fun _printedSpId =>
  mbind (ownerStep env app cfg.owner_mailnickname) fun _ =>
  mbind (liftE (app.index "id")) fun app_id2 =>
  mbind (add_api_permissions env app_id2) fun _ =>
  mbind (liftE (app.index "id")) fun app_id3 =>
  mbind (update_internal_notes env app_id3 "Updated notes: now managed by CloudOps") fun _ =>
  mpure ()

/-! ### Request shapes and response assumptions -/

/-- The request the application-creation step issues for a given token and
configuration. -/
def createReq (tok : Json) (cfg : Config) : HttpRequest :=
  mkReq tok "POST" "/applications"
    (some (createAppBody cfg.display_name (redirect_uris_list (cfg.redirect_uris.getD ""))
      cfg.notes_text)) none

/-- The request the service-principal step issues. -/
def spReq (tok appid : Json) : HttpRequest :=
  mkReq tok "POST" "/servicePrincipals" (some (spBody appid)) none

/-- The request the owner-resolution step issues. -/
def usersReq (tok : Json) (nick : String) : HttpRequest :=
  mkReq tok "GET" "/users" none (some (userParams nick))

/-- The request the add-owner step issues. -/
def ownersReq (tok app_object_id owner_object_id : Json) : HttpRequest :=
  mkReq tok "POST" ("/applications/" ++ pyStr app_object_id ++ "/owners/$ref")
    (some (ownerRefBody owner_object_id)) none

/-- The request the permission-assignment step issues. -/
def permReq (tok app_object_id : Json) : HttpRequest :=
  mkReq tok "PATCH" ("/applications/" ++ pyStr app_object_id) (some permissionsBody) none

/-- The request the notes-update step issues. -/
def notesReq (tok app_object_id : Json) : HttpRequest :=
  mkReq tok "PATCH" ("/applications/" ++ pyStr app_object_id)
    (some (notesBody "Updated notes: now managed by CloudOps")) none

/-- The network answers `req` with a successful status and a non-empty
body decoding to `j`. -/
def respondsJson (env : Env) (req : HttpRequest) (j : Json) : Prop :=
  (env.net req).statusCode < 400 ∧ (env.net req).text ≠ "" ∧ (env.net req).jsonOpt = some j

/-- The network answers `req` with a successful status and a body
decoding to `j` (body emptiness irrelevant, as for `add_secret`). -/
def respondsDecoded (env : Env) (req : HttpRequest) (j : Json) : Prop :=
  (env.net req).statusCode < 400 ∧ (env.net req).jsonOpt = some j

/-- The network answers `req` with a successful status and an empty body
(a 204 No Content, as PATCH and `$ref` POST return). -/
def respondsEmpty (env : Env) (req : HttpRequest) : Prop :=
  (env.net req).statusCode < 400 ∧ (env.net req).text = ""

/-! ### Monad and gateway lemmas -/

theorem mbind_err {α β : Type} (t : Trace) (e : Err) (f : α → M β) :
    mbind (t, Except.error e) f = (t, Except.error e) := rfl

theorem mbind_ok {α β : Type} (t : Trace) (a : α) (f : α → M β) :
    mbind (t, Except.ok a) f = (t ++ (f a).1, (f a).2) := rfl

theorem liftE_ok {α : Type} (a : α) : liftE (Except.ok a : Except Err α) = ([], Except.ok a) := rfl

theorem liftE_err {α : Type} (e : Err) :
    liftE (Except.error e : Except Err α) = ([], Except.error e) := rfl

theorem graph_call_ok {env : Env} {tok j : Json} (method endpoint : String)
    (payload : Option Json) (params : Option (List (String × String)))
    (htok : get_token env = .ok tok)
    (h : respondsJson env (mkReq tok method endpoint payload params) j) :
    graph_call env method endpoint payload params =
      ([mkReq tok method endpoint payload params], .ok j) := by
  obtain ⟨h1, h2, h3⟩ := h
  have hok : (env.net (mkReq tok method endpoint payload params)).ok = true := by
    simp [HttpResponse.ok, h1]
  have hne : (env.net (mkReq tok method endpoint payload params)).text.isEmpty = false :=
    Bool.eq_false_iff.mpr (fun hemp => h2 ((String.isEmpty_iff _).mp hemp))
  simp [graph_call, htok, hok, hne, h3]

theorem graph_call_empty {env : Env} {tok : Json} (method endpoint : String)
    (payload : Option Json) (params : Option (List (String × String)))
    (htok : get_token env = .ok tok)
    (h : respondsEmpty env (mkReq tok method endpoint payload params)) :
    graph_call env method endpoint payload params =
      ([mkReq tok method endpoint payload params], .ok (Json.obj [])) := by
  obtain ⟨h1, h2⟩ := h
  have hok : (env.net (mkReq tok method endpoint payload params)).ok = true := by
    simp [HttpResponse.ok, h1]
  have hne : (env.net (mkReq tok method endpoint payload params)).text.isEmpty = true := by
    simp [String.isEmpty_iff, h2]
  simp [graph_call, htok, hok, hne]

theorem graph_call_err {env : Env} {tok : Json} (method endpoint : String)
    (payload : Option Json) (params : Option (List (String × String)))
    (htok : get_token env = .ok tok)
    (hok : (env.net (mkReq tok method endpoint payload params)).ok = false) :
    graph_call env method endpoint payload params =
      ([mkReq tok method endpoint payload params],
        .error (.exc (method ++ " " ++ (GRAPH_BASE ++ endpoint) ++ " failed: " ++
          toString (env.net (mkReq tok method endpoint payload params)).statusCode ++ " " ++
          (env.net (mkReq tok method endpoint payload params)).text))) := by
  unfold graph_call
  rw [htok]
  simp [hok]

theorem graph_call_noToken {env : Env} {e : Err} (method endpoint : String)
    (payload : Option Json) (params : Option (List (String × String)))
    (htok : get_token env = .error e) :
    graph_call env method endpoint payload params = ([], .error e) := by
  unfold graph_call
  rw [htok]

theorem except_bind_ok {α β : Type} (a : α) (f : α → Except Err β) :
    (Except.ok a >>= f) = f a := rfl

theorem except_bind_err {α β : Type} (e : Err) (f : α → Except Err β) :
    ((Except.error e : Except Err α) >>= f) = Except.error e := rfl

/-! ### Per-action specification lemmas -/

theorem create_app_ok {env : Env} {tok appJson : Json} (cfg : Config)
    (htok : get_token env = .ok tok) (h : respondsJson env (createReq tok cfg) appJson) :
    create_app env cfg.display_name (redirect_uris_list (cfg.redirect_uris.getD ""))
      cfg.notes_text = ([createReq tok cfg], .ok appJson) := by
  exact graph_call_ok "POST" "/applications" _ none htok h

theorem add_secret_ok {env : Env} {tok a j : Json}
    (htok : get_token env = .ok tok) (h : respondsDecoded env (secretReq tok a) j) :
    add_secret env a = ([secretReq tok a], .ok j) := by
  obtain ⟨h1, h2⟩ := h
  have hok : (env.net (secretReq tok a)).ok = true := by
    simp [HttpResponse.ok, h1]
  simp [add_secret, htok, hok, h2]

theorem create_service_principal_ok {env : Env} {tok appid j : Json}
    (htok : get_token env = .ok tok) (h : respondsJson env (spReq tok appid) j) :
    create_service_principal env appid = ([spReq tok appid], .ok j) := by
  exact graph_call_ok "POST" "/servicePrincipals" _ none htok h

theorem resolve_user_ok {env : Env} {tok usersJson u0 uid : Json} {us : List Json}
    (nick : String)
    (htok : get_token env = .ok tok) (h : respondsJson env (usersReq tok nick) usersJson)
    (hval : usersJson.dictGet "value" (Json.arr []) = .ok (Json.arr (u0 :: us)))
    (hid : u0.index "id" = .ok uid) :
    resolve_user_by_mailnickname env nick = ([usersReq tok nick], .ok uid) := by
  have hgc := graph_call_ok "GET" "/users" none (some (userParams nick)) htok h
  simp [resolve_user_by_mailnickname, usersReq] at hgc ⊢
  rw [hgc]
  simp [mbind_ok, hval, except_bind_ok, pyFalsy, Json.index0, hid, liftE]

theorem resolve_user_noUser {env : Env} {tok usersJson v : Json} (nick : String)
    (htok : get_token env = .ok tok) (h : respondsJson env (usersReq tok nick) usersJson)
    (hval : usersJson.dictGet "value" (Json.arr []) = .ok v) (hfalsy : pyFalsy v = true) :
    resolve_user_by_mailnickname env nick =
      ([usersReq tok nick],
        .error (.exc ("No user found with mailNickname='" ++ nick ++ "'"))) := by
  have hgc := graph_call_ok "GET" "/users" none (some (userParams nick)) htok h
  simp [resolve_user_by_mailnickname, usersReq] at hgc ⊢
  rw [hgc]
  simp [mbind_ok, hval, except_bind_ok, hfalsy, liftE]

theorem add_owner_ok {env : Env} {tok a b : Json}
    (htok : get_token env = .ok tok) (h : respondsEmpty env (ownersReq tok a b)) :
    add_owner env a b = ([ownersReq tok a b], .ok (Json.obj [])) := by
  exact graph_call_empty "POST" _ _ none htok h

theorem add_api_permissions_ok {env : Env} {tok a : Json}
    (htok : get_token env = .ok tok) (h : respondsEmpty env (permReq tok a)) :
    add_api_permissions env a = ([permReq tok a], .ok (Json.obj [])) := by
  exact graph_call_empty "PATCH" _ _ none htok h

theorem update_internal_notes_ok {env : Env} {tok a : Json}
    (htok : get_token env = .ok tok) (h : respondsEmpty env (notesReq tok a)) :
    update_internal_notes env a "Updated notes: now managed by CloudOps" =
      ([notesReq tok a], .ok (Json.obj [])) := by
  exact graph_call_empty "PATCH" _ _ none htok h

/-! ### A successful run, described by the data the network returns -/

/-- The assumptions of a run in which every issued request succeeds: the
token endpoint yields a token, application creation returns a JSON object
whose `id` field is the string `oid` and whose `appId` field is `appIdJ`,
secret creation and service-principal creation return decodable JSON with
the keys the script reads, and the two PATCH requests succeed with empty
bodies (the owner steps are described separately, per owner
configuration). -/
structure Scenario (env : Env) (cfg : Config) : Type where
  tok : Json
  appJson : Json
  oid : String
  appIdJ : Json
  secretJson : Json
  secretTextJ : Json
  spJson : Json
  spIdJ : Json
  htok : get_token env = .ok tok
  hCreate : respondsJson env (createReq tok cfg) appJson
  hAppId : appJson.index "appId" = .ok appIdJ
  hOid : appJson.index "id" = .ok (Json.str oid)
  hSecret : respondsDecoded env (secretReq tok (Json.str oid)) secretJson
  hSecretText : secretJson.index "secretText" = .ok secretTextJ
  hSp : respondsJson env (spReq tok appIdJ) spJson
  hSpId : spJson.index "id" = .ok spIdJ
  hPerm : respondsEmpty env (permReq tok (Json.str oid))
  hNotes : respondsEmpty env (notesReq tok (Json.str oid))

/-- With no owner alias configured (unset or empty), a successful run
issues exactly the five requests, in order: create application, add
secret, create service principal, assign permissions, patch notes. -/
theorem main_run_noOwner (env : Env) (cfg : Config) (s : Scenario env cfg)
    (hO : pyTruthyOptStr cfg.owner_mailnickname = false) :
    main_run env cfg =
      ([createReq s.tok cfg, secretReq s.tok (Json.str s.oid), spReq s.tok s.appIdJ,
        permReq s.tok (Json.str s.oid), notesReq s.tok (Json.str s.oid)], .ok ()) := by
  unfold main_run ownerStep
  rw [create_app_ok cfg s.htok s.hCreate]
  simp only [mbind_ok, mbind_err, liftE_ok, liftE_err, s.hAppId, s.hOid, s.hSecretText, s.hSpId,
    add_secret_ok s.htok s.hSecret, create_service_principal_ok s.htok s.hSp,
    add_api_permissions_ok s.htok s.hPerm, update_internal_notes_ok s.htok s.hNotes, hO, mpure]
  simp [mbind_ok, mbind_err]

/-- With a (nonempty) owner alias configured and a user list whose first
element carries an `id`, a successful run issues exactly the seven
requests, in order: create application, add secret, create service
principal, look up the user, add the owner, assign permissions, patch
notes. -/
theorem main_run_owner (env : Env) (cfg : Config) (s : Scenario env cfg)
    {nick : String} {usersJson u0 uidJ : Json} {us : List Json}
    (hO : cfg.owner_mailnickname = some nick) (hnick : nick.isEmpty = false)
    (hUsers : respondsJson env (usersReq s.tok nick) usersJson)
    (hval : usersJson.dictGet "value" (Json.arr []) = .ok (Json.arr (u0 :: us)))
    (hid : u0.index "id" = .ok uidJ)
    (hOwner : respondsEmpty env (ownersReq s.tok (Json.str s.oid) uidJ)) :
    main_run env cfg =
      ([createReq s.tok cfg, secretReq s.tok (Json.str s.oid), spReq s.tok s.appIdJ,
        usersReq s.tok nick, ownersReq s.tok (Json.str s.oid) uidJ,
        permReq s.tok (Json.str s.oid), notesReq s.tok (Json.str s.oid)], .ok ()) := by
  unfold main_run ownerStep
  rw [create_app_ok cfg s.htok s.hCreate]
  simp only [mbind_ok, mbind_err, liftE_ok, liftE_err, s.hAppId, s.hOid, s.hSecretText, s.hSpId,
    add_secret_ok s.htok s.hSecret, create_service_principal_ok s.htok s.hSp,
    add_api_permissions_ok s.htok s.hPerm, update_internal_notes_ok s.htok s.hNotes,
    hO, pyTruthyOptStr, hnick, Option.getD,
    resolve_user_ok nick s.htok hUsers hval hid,
    add_owner_ok s.htok hOwner, mpure]
  simp [mbind_ok, mbind_err]

/-- With a (nonempty) owner alias configured and a user lookup returning a
Python-falsy `value` (e.g. the empty list), the run stops at the lookup:
it issues exactly four requests and raises the "No user found" error;
neither the add-owner request nor any later request is issued. -/
theorem main_run_ownerNoUser (env : Env) (cfg : Config) (s : Scenario env cfg)
    {nick : String} {usersJson v : Json}
    (hO : cfg.owner_mailnickname = some nick) (hnick : nick.isEmpty = false)
    (hUsers : respondsJson env (usersReq s.tok nick) usersJson)
    (hval : usersJson.dictGet "value" (Json.arr []) = .ok v) (hfalsy : pyFalsy v = true) :
    main_run env cfg =
      ([createReq s.tok cfg, secretReq s.tok (Json.str s.oid), spReq s.tok s.appIdJ,
        usersReq s.tok nick],
       .error (.exc ("No user found with mailNickname='" ++ nick ++ "'"))) := by
  unfold main_run ownerStep
  rw [create_app_ok cfg s.htok s.hCreate]
  simp only [mbind_ok, mbind_err, liftE_ok, liftE_err, s.hAppId, s.hOid, s.hSecretText, s.hSpId,
    add_secret_ok s.htok s.hSecret, create_service_principal_ok s.htok s.hSp,
    hO, pyTruthyOptStr, hnick, Option.getD,
    resolve_user_noUser nick s.htok hUsers hval hfalsy, mpure]
  simp [mbind_ok, mbind_err]

/-! ### Further helper lemmas -/

theorem ok_iff (r : HttpResponse) : r.ok = true ↔ r.statusCode < 400 := by
  simp [HttpResponse.ok]

theorem graph_call_fst {env : Env} {tok : Json} (method endpoint : String)
    (payload : Option Json) (params : Option (List (String × String)))
    (htok : get_token env = .ok tok) :
    (graph_call env method endpoint payload params).1 =
      [mkReq tok method endpoint payload params] := by
  unfold graph_call
  rw [htok]

theorem mbind_fst_liftE {α : Type} (x : M Json) (g : Json → Except Err α) :
    (mbind x fun a => liftE (g a)).1 = x.1 := by
  obtain ⟨t, r⟩ := x
  cases r <;> simp [mbind, liftE]

/-- The map-after-filter form of the Python list comprehension
`[u.strip() for u in xs if u.strip()]`, rewritten as filter-after-map. -/
theorem filter_strip_comm (xs : List String) :
    (xs.filter (fun u => !(pyStrip u).isEmpty)).map pyStrip =
      (xs.map pyStrip).filter (fun u => u ≠ "") := by
  induction xs with
  | nil => rfl
  | cons x xs ih =>
    by_cases h : pyStrip x = ""
    · have h2 : (pyStrip x).isEmpty = true := (String.isEmpty_iff _).mpr h
      have h3 : ("" : String).isEmpty = true := rfl
      simp [List.filter, List.map, h2, h3, h, ih]
    · have h2 : (pyStrip x).isEmpty = false :=
        Bool.eq_false_iff.mpr (fun hemp => h ((String.isEmpty_iff _).mp hemp))
      simp [List.filter, List.map, h2, h, ih]

/-! ### Claims -/

/-- C7: for every call through the gateway (once a token is acquired), a
non-success status raises an error whose message carries the method, the
full URL, the status code and the response body text; a success status
returns the decoded JSON body when the body is non-empty, and the empty
dict when the body is empty. -/
theorem claim_C7_graph_call_contract (env : Env) (tok : Json)
    (method endpoint : String) (payload : Option Json)
    (params : Option (List (String × String)))
    (htok : get_token env = .ok tok) :
    ((env.net (mkReq tok method endpoint payload params)).ok = false →
      graph_call env method endpoint payload params =
        ([mkReq tok method endpoint payload params],
          .error (.exc (method ++ " " ++ (GRAPH_BASE ++ endpoint) ++ " failed: " ++
            toString (env.net (mkReq tok method endpoint payload params)).statusCode ++ " " ++
            (env.net (mkReq tok method endpoint payload params)).text)))) ∧
    (∀ j, (env.net (mkReq tok method endpoint payload params)).ok = true →
      (env.net (mkReq tok method endpoint payload params)).text ≠ "" →
      (env.net (mkReq tok method endpoint payload params)).jsonOpt = some j →
      graph_call env method endpoint payload params =
        ([mkReq tok method endpoint payload params], .ok j)) ∧
    ((env.net (mkReq tok method endpoint payload params)).ok = true →
      (env.net (mkReq tok method endpoint payload params)).text = "" →
      graph_call env method endpoint payload params =
        ([mkReq tok method endpoint payload params], .ok (Json.obj []))) := by
  refine ⟨fun hok => ?_, fun j h1 h2 h3 => ?_, fun h1 h2 => ?_⟩
  · unfold graph_call
    rw [htok]
    simp [hok]
  · exact graph_call_ok method endpoint payload params htok ⟨(ok_iff _).mp h1, h2, h3⟩
  · exact graph_call_empty method endpoint payload params htok ⟨(ok_iff _).mp h1, h2⟩

/-- C5: when the token-endpoint response carries no access token, token
acquisition raises, every gateway call raises that same error without
issuing any network request, and the whole workflow aborts having issued
no request at all — in particular no application-creation request. -/
theorem claim_C5_no_token_no_requests (env : Env) (cfg : Config)
    (h : lookupField env.tokenResp "access_token" = none) :
    get_token env = .error (.excData env.tokenResp) ∧
    (∀ method endpoint payload params,
      graph_call env method endpoint payload params = ([], .error (.excData env.tokenResp))) ∧
    main_run env cfg = ([], .error (.excData env.tokenResp)) := by
  have htok : get_token env = .error (.excData env.tokenResp) := by
    unfold get_token
    rw [h]
  refine ⟨htok, fun m e p q => graph_call_noToken m e p q htok, ?_⟩
  unfold main_run create_app
  rw [graph_call_noToken _ _ _ _ htok]
  simp [mbind_err]

/-- C4: in every run (whatever the network answers) and for every
application object id, the permission-assignment step issues one PATCH
whose body sets `requiredResourceAccess` to exactly one resource entry,
for the fixed resource app id, carrying exactly two resource-access
entries — one of type Role and one of type Scope; the submitted body is a
constant, so it replaces rather than merges whatever permissions exist. -/
theorem claim_C4_permissions_fixed_replace (env : Env) (tok a : Json)
    (htok : get_token env = .ok tok) :
    (add_api_permissions env a).1 = [permReq tok a] ∧
    (permReq tok a).method = "PATCH" ∧
    (permReq tok a).payload = some (Json.obj [("requiredResourceAccess", Json.arr
      [Json.obj [("resourceAppId", Json.str "00000003-0000-0000-c000-000000000000"),
                 ("resourceAccess", Json.arr
                   [Json.obj [("id", Json.str "df021288-bdef-4463-88db-98f22de89214"),
                              ("type", Json.str "Role")],
                    Json.obj [("id", Json.str "e1fe6dd8-ba31-4d61-89e7-88639da4683d"),
                              ("type", Json.str "Scope")]])]])]) := by
  refine ⟨graph_call_fst _ _ _ _ htok, rfl, rfl⟩

/-- C9: the redirect-URI list is obtained by splitting the configuration
string on commas, trimming each piece, and discarding pieces that are
empty after trimming; an unset or empty configuration value yields the
empty list, and no element of the result is the empty string. -/
theorem claim_C9_redirect_uri_parsing :
    (∀ s : String, redirect_uris_list s =
      ((pySplit s ',').map pyStrip).filter (fun u => u ≠ "")) ∧
    (∀ o : Option String, o = none ∨ o = some "" → redirect_uris_list (o.getD "") = []) ∧
    (∀ (s u : String), u ∈ redirect_uris_list s → u ≠ "") := by
  have hmain : ∀ s : String, redirect_uris_list s =
      ((pySplit s ',').map pyStrip).filter (fun u => u ≠ "") := by
    intro s
    unfold redirect_uris_list
    exact filter_strip_comm (pySplit s ',')
  refine ⟨hmain, ?_, ?_⟩
  · rintro o (rfl | rfl) <;> decide
  · intro s u hu
    rw [hmain] at hu
    have := List.of_mem_filter hu
    simpa using this

/-- C10: the user-lookup request's parameters are exactly the `$filter`
string `mailNickname eq '<alias>'` with the alias inserted verbatim and a
fixed `$select`; the filter's single-quote count is two plus the quote
count of the alias, so an alias containing a quote changes the structure
of the filter expression rather than being matched literally. -/
theorem claim_C10_filter_unescaped (env : Env) (tok : Json) (nick : String)
    (htok : get_token env = .ok tok) :
    (resolve_user_by_mailnickname env nick).1 = [usersReq tok nick] ∧
    (usersReq tok nick).params =
      some [("$filter", "mailNickname eq '" ++ nick ++ "'"),
            ("$select", "id,displayName,mailNickname")] ∧
    ("mailNickname eq '" ++ nick ++ "'").toList.count (Char.ofNat 39) =
      nick.toList.count (Char.ofNat 39) + 2 := by
  refine ⟨?_, rfl, ?_⟩
  · unfold resolve_user_by_mailnickname
    rw [mbind_fst_liftE]
    exact graph_call_fst _ _ _ _ htok
  · have h1 : ("mailNickname eq '" ++ nick ++ "'").toList =
        "mailNickname eq '".toList ++ (nick.toList ++ "'".toList) := by
      simp [String.toList, String.data_append]
    rw [h1, List.count_append, List.count_append]
    have h2 : ("mailNickname eq '".toList).count (Char.ofNat 39) = 1 := by decide
    have h3 : ("'".toList).count (Char.ofNat 39) = 1 := by decide
    rw [h2, h3]
    ring

/-- C1: in every completed run — whatever `notes_text` the application was
created with, and with or without an owner alias — the last request the
workflow issues is the notes PATCH, and its body is the fixed literal
`"Updated notes: now managed by CloudOps"`; the configuration's
`notes_text` (universally quantified inside `cfg`) does not occur in it. -/
theorem claim_C1_final_notes_literal :
    (∀ (env : Env) (cfg : Config) (s : Scenario env cfg),
      pyTruthyOptStr cfg.owner_mailnickname = false →
      (main_run env cfg).1.getLast? = some (notesReq s.tok (Json.str s.oid)) ∧
      (notesReq s.tok (Json.str s.oid)).payload =
        some (Json.obj [("notes", Json.str "Updated notes: now managed by CloudOps")])) ∧
    (∀ (env : Env) (cfg : Config) (s : Scenario env cfg) (nick : String)
        (usersJson u0 uidJ : Json) (us : List Json),
      cfg.owner_mailnickname = some nick → nick.isEmpty = false →
      respondsJson env (usersReq s.tok nick) usersJson →
      usersJson.dictGet "value" (Json.arr []) = .ok (Json.arr (u0 :: us)) →
      u0.index "id" = .ok uidJ →
      respondsEmpty env (ownersReq s.tok (Json.str s.oid) uidJ) →
      (main_run env cfg).1.getLast? = some (notesReq s.tok (Json.str s.oid)) ∧
      (notesReq s.tok (Json.str s.oid)).payload =
        some (Json.obj [("notes", Json.str "Updated notes: now managed by CloudOps")])) := by
  constructor
  · intro env cfg s hO
    rw [main_run_noOwner env cfg s hO]
    exact ⟨rfl, rfl⟩
  · intro env cfg s nick usersJson u0 uidJ us hO hnick hUsers hval hid hOwner
    rw [main_run_owner env cfg s hO hnick hUsers hval hid hOwner]
    exact ⟨rfl, rfl⟩

/-- C2: owner resolution with zero matches raises the "No user found"
error and the run ends at the user-lookup request — no add-owner request
is ever issued; with one or more matches, the first returned element's
`id` is used verbatim, and the add-owner request's payload directory
reference is exactly the base URL concatenated with
`"/directoryObjects/"` and that id. -/
theorem claim_C2_owner_resolution :
    (∀ (env : Env) (cfg : Config) (s : Scenario env cfg) (nick : String)
        (usersJson v : Json),
      cfg.owner_mailnickname = some nick → nick.isEmpty = false →
      respondsJson env (usersReq s.tok nick) usersJson →
      usersJson.dictGet "value" (Json.arr []) = .ok v → pyFalsy v = true →
      (main_run env cfg).2 =
        .error (.exc ("No user found with mailNickname='" ++ nick ++ "'")) ∧
      (main_run env cfg).1.getLast? = some (usersReq s.tok nick) ∧
      (∀ a b : Json, ownersReq s.tok a b ∉ (main_run env cfg).1)) ∧
    (∀ (env : Env) (cfg : Config) (s : Scenario env cfg) (nick uid : String)
        (usersJson u0 : Json) (us : List Json),
      cfg.owner_mailnickname = some nick → nick.isEmpty = false →
      respondsJson env (usersReq s.tok nick) usersJson →
      usersJson.dictGet "value" (Json.arr []) = .ok (Json.arr (u0 :: us)) →
      u0.index "id" = .ok (Json.str uid) →
      respondsEmpty env (ownersReq s.tok (Json.str s.oid) (Json.str uid)) →
      (main_run env cfg).1.get? 4 = some (ownersReq s.tok (Json.str s.oid) (Json.str uid)) ∧
      (ownersReq s.tok (Json.str s.oid) (Json.str uid)).payload =
        some (Json.obj [("@odata.id",
          Json.str (GRAPH_BASE ++ "/directoryObjects/" ++ uid))])) := by
  constructor
  · intro env cfg s nick usersJson v hO hnick hUsers hval hfalsy
    rw [main_run_ownerNoUser env cfg s hO hnick hUsers hval hfalsy]
    refine ⟨rfl, rfl, ?_⟩
    intro a b hmem
    simp only [List.mem_cons, List.not_mem_nil, or_false] at hmem
    rcases hmem with h | h | h | h <;>
      simp [ownersReq, createReq, secretReq, spReq, usersReq, mkReq, ownerRefBody,
        createAppBody, addSecretBody, spBody, userParams] at h
  · intro env cfg s nick uid usersJson u0 us hO hnick hUsers hval hid hOwner
    rw [main_run_owner env cfg s hO hnick hUsers hval hid hOwner]
    exact ⟨rfl, rfl⟩

/-- C6: with no owner alias configured (unset or empty), the user-lookup
and add-owner requests are never issued and the run is exactly the five
requests create app, add secret, create service principal, assign
permissions, patch notes — permission assignment directly follows
service-principal creation; with an alias configured, the add-owner
request is issued immediately after the user-lookup request succeeds. -/
theorem claim_C6_owner_steps_conditional :
    (∀ (env : Env) (cfg : Config) (s : Scenario env cfg),
      pyTruthyOptStr cfg.owner_mailnickname = false →
      main_run env cfg =
        ([createReq s.tok cfg, secretReq s.tok (Json.str s.oid), spReq s.tok s.appIdJ,
          permReq s.tok (Json.str s.oid), notesReq s.tok (Json.str s.oid)], .ok ()) ∧
      (∀ nick, usersReq s.tok nick ∉ (main_run env cfg).1) ∧
      (∀ a b : Json, ownersReq s.tok a b ∉ (main_run env cfg).1)) ∧
    (∀ (env : Env) (cfg : Config) (s : Scenario env cfg) (nick : String)
        (usersJson u0 uidJ : Json) (us : List Json),
      cfg.owner_mailnickname = some nick → nick.isEmpty = false →
      respondsJson env (usersReq s.tok nick) usersJson →
      usersJson.dictGet "value" (Json.arr []) = .ok (Json.arr (u0 :: us)) →
      u0.index "id" = .ok uidJ →
      respondsEmpty env (ownersReq s.tok (Json.str s.oid) uidJ) →
      (main_run env cfg).1.get? 3 = some (usersReq s.tok nick) ∧
      (main_run env cfg).1.get? 4 = some (ownersReq s.tok (Json.str s.oid) uidJ)) := by
  constructor
  · intro env cfg s hO
    have hmain := main_run_noOwner env cfg s hO
    refine ⟨hmain, ?_, ?_⟩
    · intro nick hmem
      rw [hmain] at hmem
      simp only [List.mem_cons, List.not_mem_nil, or_false] at hmem
      rcases hmem with h | h | h | h | h <;>
        simp [usersReq, createReq, secretReq, spReq, permReq, notesReq, mkReq,
          userParams] at h
    · intro a b hmem
      rw [hmain] at hmem
      simp only [List.mem_cons, List.not_mem_nil, or_false] at hmem
      rcases hmem with h | h | h | h | h <;>
        simp [ownersReq, createReq, secretReq, spReq, permReq, notesReq, mkReq,
          ownerRefBody, createAppBody, addSecretBody, spBody, permissionsBody,
          notesBody] at h
  · intro env cfg s nick usersJson u0 uidJ us hO hnick hUsers hval hid hOwner
    rw [main_run_owner env cfg s hO hnick hUsers hval hid hOwner]
    exact ⟨rfl, rfl⟩

/-- C8: the secret-creation request is the second request of the run, and
its URL embeds the object id (the `id` field returned by application
creation, here `s.oid`), not the client id (`s.appIdJ`, which is
universally quantified and absent from the URL): the URL is exactly the
base, `"/applications/"`, the object id, and `"/addPassword"`. -/
theorem claim_C8_secret_addressed_by_object_id :
    (∀ (env : Env) (cfg : Config) (s : Scenario env cfg),
      pyTruthyOptStr cfg.owner_mailnickname = false →
      (main_run env cfg).1.get? 1 = some (secretReq s.tok (Json.str s.oid)) ∧
      (secretReq s.tok (Json.str s.oid)).url =
        GRAPH_BASE ++ "/applications/" ++ s.oid ++ "/addPassword") ∧
    (∀ (env : Env) (cfg : Config) (s : Scenario env cfg) (nick : String)
        (usersJson u0 uidJ : Json) (us : List Json),
      cfg.owner_mailnickname = some nick → nick.isEmpty = false →
      respondsJson env (usersReq s.tok nick) usersJson →
      usersJson.dictGet "value" (Json.arr []) = .ok (Json.arr (u0 :: us)) →
      u0.index "id" = .ok uidJ →
      respondsEmpty env (ownersReq s.tok (Json.str s.oid) uidJ) →
      (main_run env cfg).1.get? 1 = some (secretReq s.tok (Json.str s.oid))) := by
  constructor
  · intro env cfg s hO
    rw [main_run_noOwner env cfg s hO]
    exact ⟨rfl, rfl⟩
  · intro env cfg s nick usersJson u0 uidJ us hO hnick hUsers hval hid hOwner
    rw [main_run_owner env cfg s hO hnick hUsers hval hid hOwner]
    rfl

/-- The direct request `add_secret` builds coincides with the request the
gateway would build for the same method, endpoint and body. -/
theorem secretReq_eq_mkReq (tok a : Json) :
    secretReq tok a =
      mkReq tok "POST" ("/applications/" ++ pyStr a ++ "/addPassword")
        (some addSecretBody) none := by
  simp [secretReq, mkReq, String.append_assoc]

/-- C3 (amended): routing the secret-creation POST through the gateway
issues the identical request and agrees with `add_secret` on every
successful response with a non-empty body; but the two are not
functionally identical: on a non-success status both raise, with
different error content (`add_secret`'s error carries only the body text,
the gateway's also carries method, URL and status), and on a successful
empty (hence undecodable) body the gateway returns the empty dict while
`add_secret` raises a JSON decode error. -/
theorem claim_C3_add_secret_vs_gateway (env : Env) (a : Json) :
    (add_secret env a).1 =
      (graph_call env "POST" ("/applications/" ++ pyStr a ++ "/addPassword")
        (some addSecretBody) none).1 ∧
    (∀ e, get_token env = .error e →
      add_secret env a = ([], .error e) ∧
      graph_call env "POST" ("/applications/" ++ pyStr a ++ "/addPassword")
        (some addSecretBody) none = ([], .error e)) ∧
    (∀ tok, get_token env = .ok tok →
      ((env.net (secretReq tok a)).ok = true → (env.net (secretReq tok a)).text ≠ "" →
        (add_secret env a).2 =
          (graph_call env "POST" ("/applications/" ++ pyStr a ++ "/addPassword")
            (some addSecretBody) none).2) ∧
      ((env.net (secretReq tok a)).ok = false →
        (add_secret env a).2 = .error (.exc (env.net (secretReq tok a)).text) ∧
        (graph_call env "POST" ("/applications/" ++ pyStr a ++ "/addPassword")
          (some addSecretBody) none).2 =
          .error (.exc ("POST " ++
            (GRAPH_BASE ++ ("/applications/" ++ pyStr a ++ "/addPassword")) ++
            " failed: " ++ toString (env.net (secretReq tok a)).statusCode ++ " " ++
            (env.net (secretReq tok a)).text))) ∧
      ((env.net (secretReq tok a)).ok = true → (env.net (secretReq tok a)).text = "" →
        (env.net (secretReq tok a)).jsonOpt = none →
        (graph_call env "POST" ("/applications/" ++ pyStr a ++ "/addPassword")
          (some addSecretBody) none).2 = .ok (Json.obj []) ∧
        (add_secret env a).2 = .error Err.jsonDecodeError)) := by
  refine ⟨?_, fun e he => ?_, fun tok htok => ?_⟩
  · cases hga : get_token env with
    | error e =>
      unfold add_secret graph_call
      rw [hga]
    | ok tok =>
      unfold add_secret graph_call
      rw [hga]
      simp [secretReq_eq_mkReq]
  · constructor
    · unfold add_secret
      rw [he]
    · unfold graph_call
      rw [he]
  · have hreq := secretReq_eq_mkReq tok a
    refine ⟨fun hok htext => ?_, fun hok => ?_, fun hok htext hjson => ?_⟩
    · have hne : (env.net (secretReq tok a)).text.isEmpty = false :=
        Bool.eq_false_iff.mpr (fun hemp => htext ((String.isEmpty_iff _).mp hemp))
      unfold add_secret graph_call
      rw [htok]
      simp [← hreq, hok, hne]
    · constructor
      · unfold add_secret
        rw [htok]
        simp [hok]
      · have hok2 : (env.net (mkReq tok "POST" ("/applications/" ++ pyStr a ++ "/addPassword")
            (some addSecretBody) none)).ok = false := hreq ▸ hok
        rw [graph_call_err "POST" ("/applications/" ++ pyStr a ++ "/addPassword")
          (some addSecretBody) none htok hok2, ← hreq]
        simp
    · have hne : (env.net (secretReq tok a)).text.isEmpty = true :=
        (String.isEmpty_iff _).mpr htext
      unfold add_secret graph_call
      rw [htok]
      simp [← hreq, hok, hne, hjson]

/-! ### Concrete environments used to instantiate the theorems -/

/-- A token-endpoint response carrying an access token. -/
def sampleTokenResp : List (String × Json) :=
  [("token_type", Json.str "Bearer"), ("access_token", Json.str "TOK")]

def sampleAppJson : Json := Json.obj [("id", Json.str "obj-1"), ("appId", Json.str "app-1")]

def sampleSecretJson : Json := Json.obj [("secretText", Json.str "s3cret")]

def sampleSpJson : Json := Json.obj [("id", Json.str "sp-1")]

def sampleUser : Json :=
  Json.obj [("id", Json.str "u-123"), ("displayName", Json.str "J Doe"),
            ("mailNickname", Json.str "jdoe")]

def sampleUsersJson : Json := Json.obj [("value", Json.arr [sampleUser])]

def sampleUsersEmpty : Json := Json.obj [("value", Json.arr [])]

/-- A network in which every step of the workflow succeeds and the user
lookup finds `sampleUser`. -/
def sampleNet (req : HttpRequest) : HttpResponse :=
  if req.url = "https://graph.microsoft.com/v1.0/applications" then
    { statusCode := 201, text := "app", jsonOpt := some sampleAppJson }
  else if req.url = "https://graph.microsoft.com/v1.0/applications/obj-1/addPassword" then
    { statusCode := 200, text := "secret", jsonOpt := some sampleSecretJson }
  else if req.url = "https://graph.microsoft.com/v1.0/servicePrincipals" then
    { statusCode := 201, text := "sp", jsonOpt := some sampleSpJson }
  else if req.url = "https://graph.microsoft.com/v1.0/users" then
    { statusCode := 200, text := "users", jsonOpt := some sampleUsersJson }
  else
    { statusCode := 204, text := "", jsonOpt := none }

def sampleEnv : Env := { tokenResp := sampleTokenResp, net := sampleNet }

/-- Like `sampleNet`, but the user lookup returns no matches. -/
def sampleNetNoUser (req : HttpRequest) : HttpResponse :=
  if req.url = "https://graph.microsoft.com/v1.0/users" then
    { statusCode := 200, text := "users", jsonOpt := some sampleUsersEmpty }
  else sampleNet req

def sampleEnvNoUser : Env := { tokenResp := sampleTokenResp, net := sampleNetNoUser }

/-- A token endpoint that returns no access token. -/
def noTokenEnv : Env :=
  { tokenResp := [("error", Json.str "invalid_client")], net := sampleNet }

/-- A network answering every request with 204 No Content (empty body). -/
def emptyBodyEnv : Env :=
  { tokenResp := sampleTokenResp
    net := fun _ => { statusCode := 204, text := "", jsonOpt := none } }

def sampleCfg : Config :=
  { display_name := some "Example App", redirect_uris := some "https://app.example/cb",
    notes_text := some "created by provisioning", owner_mailnickname := none }

def sampleCfgOwner : Config := { sampleCfg with owner_mailnickname := some "jdoe" }

def sampleScenario : Scenario sampleEnv sampleCfg where
  tok := Json.str "TOK"
  appJson := sampleAppJson
  oid := "obj-1"
  appIdJ := Json.str "app-1"
  secretJson := sampleSecretJson
  secretTextJ := Json.str "s3cret"
  spJson := sampleSpJson
  spIdJ := Json.str "sp-1"
  htok := rfl
  hCreate := ⟨by decide, by decide, rfl⟩
  hAppId := rfl
  hOid := rfl
  hSecret := ⟨by decide, rfl⟩
  hSecretText := rfl
  hSp := ⟨by decide, by decide, rfl⟩
  hSpId := rfl
  hPerm := ⟨by decide, rfl⟩
  hNotes := ⟨by decide, rfl⟩

def sampleScenarioOwner : Scenario sampleEnv sampleCfgOwner where
  tok := Json.str "TOK"
  appJson := sampleAppJson
  oid := "obj-1"
  appIdJ := Json.str "app-1"
  secretJson := sampleSecretJson
  secretTextJ := Json.str "s3cret"
  spJson := sampleSpJson
  spIdJ := Json.str "sp-1"
  htok := rfl
  hCreate := ⟨by decide, by decide, rfl⟩
  hAppId := rfl
  hOid := rfl
  hSecret := ⟨by decide, rfl⟩
  hSecretText := rfl
  hSp := ⟨by decide, by decide, rfl⟩
  hSpId := rfl
  hPerm := ⟨by decide, rfl⟩
  hNotes := ⟨by decide, rfl⟩

def sampleScenarioNoUser : Scenario sampleEnvNoUser sampleCfgOwner where
  tok := Json.str "TOK"
  appJson := sampleAppJson
  oid := "obj-1"
  appIdJ := Json.str "app-1"
  secretJson := sampleSecretJson
  secretTextJ := Json.str "s3cret"
  spJson := sampleSpJson
  spIdJ := Json.str "sp-1"
  htok := rfl
  hCreate := ⟨by decide, by decide, rfl⟩
  hAppId := rfl
  hOid := rfl
  hSecret := ⟨by decide, rfl⟩
  hSecretText := rfl
  hSp := ⟨by decide, by decide, rfl⟩
  hSpId := rfl
  hPerm := ⟨by decide, rfl⟩
  hNotes := ⟨by decide, rfl⟩

/-- C3, the claim as stated, is false: on a successful response with an
empty body, `add_secret` and the same POST through `graph_call` give
different outcomes (a raised JSON decode error versus an empty-dict
result) at this concrete environment. -/
theorem claim_C3_counterexample :
    add_secret emptyBodyEnv (Json.str "obj-1") ≠
      graph_call emptyBodyEnv "POST"
        ("/applications/" ++ pyStr (Json.str "obj-1") ++ "/addPassword")
        (some addSecretBody) none := by
  intro h
  have h2 := congrArg Prod.snd h
  have ha : (add_secret emptyBodyEnv (Json.str "obj-1")).2 =
      Except.error Err.jsonDecodeError := rfl
  have hg : (graph_call emptyBodyEnv "POST"
      ("/applications/" ++ pyStr (Json.str "obj-1") ++ "/addPassword")
      (some addSecretBody) none).2 = Except.ok (Json.obj []) := rfl
  rw [ha, hg] at h2
  exact Except.noConfusion h2

/-! ### Witnesses: each theorem instantiated at a concrete environment -/

theorem claim_C1_witness :
    (main_run sampleEnv sampleCfg).1.getLast? =
      some (notesReq (Json.str "TOK") (Json.str "obj-1")) ∧
    (notesReq (Json.str "TOK") (Json.str "obj-1")).payload =
      some (Json.obj [("notes", Json.str "Updated notes: now managed by CloudOps")]) :=
  claim_C1_final_notes_literal.1 sampleEnv sampleCfg sampleScenario rfl

theorem claim_C2_witness :
    ((main_run sampleEnvNoUser sampleCfgOwner).2 =
      .error (.exc ("No user found with mailNickname='" ++ "jdoe" ++ "'"))) ∧
    ((main_run sampleEnv sampleCfgOwner).1.get? 4 =
      some (ownersReq (Json.str "TOK") (Json.str "obj-1") (Json.str "u-123"))) :=
  ⟨(claim_C2_owner_resolution.1 sampleEnvNoUser sampleCfgOwner sampleScenarioNoUser "jdoe"
      sampleUsersEmpty (Json.arr []) rfl rfl ⟨by decide, by decide, rfl⟩ rfl rfl).1,
   (claim_C2_owner_resolution.2 sampleEnv sampleCfgOwner sampleScenarioOwner "jdoe" "u-123"
      sampleUsersJson sampleUser [] rfl rfl ⟨by decide, by decide, rfl⟩ rfl rfl
      ⟨by decide, rfl⟩).1⟩

theorem claim_C3_witness :
    (graph_call emptyBodyEnv "POST"
      ("/applications/" ++ pyStr (Json.str "obj-1") ++ "/addPassword")
      (some addSecretBody) none).2 = .ok (Json.obj []) ∧
    (add_secret emptyBodyEnv (Json.str "obj-1")).2 = .error Err.jsonDecodeError :=
  ((claim_C3_add_secret_vs_gateway emptyBodyEnv (Json.str "obj-1")).2.2
    (Json.str "TOK") rfl).2.2 rfl rfl rfl

theorem claim_C4_witness :
    (add_api_permissions sampleEnv (Json.str "obj-1")).1 =
      [permReq (Json.str "TOK") (Json.str "obj-1")] ∧
    (permReq (Json.str "TOK") (Json.str "obj-1")).method = "PATCH" ∧
    (permReq (Json.str "TOK") (Json.str "obj-1")).payload =
      some (Json.obj [("requiredResourceAccess", Json.arr
        [Json.obj [("resourceAppId", Json.str "00000003-0000-0000-c000-000000000000"),
                   ("resourceAccess", Json.arr
                     [Json.obj [("id", Json.str "df021288-bdef-4463-88db-98f22de89214"),
                                ("type", Json.str "Role")],
                      Json.obj [("id", Json.str "e1fe6dd8-ba31-4d61-89e7-88639da4683d"),
                                ("type", Json.str "Scope")]])]])]) :=
  claim_C4_permissions_fixed_replace sampleEnv (Json.str "TOK") (Json.str "obj-1") rfl

theorem claim_C5_witness :
    main_run noTokenEnv sampleCfg =
      ([], .error (.excData [("error", Json.str "invalid_client")])) :=
  (claim_C5_no_token_no_requests noTokenEnv sampleCfg rfl).2.2

theorem claim_C6_witness :
    main_run sampleEnv sampleCfg =
      ([createReq (Json.str "TOK") sampleCfg, secretReq (Json.str "TOK") (Json.str "obj-1"),
        spReq (Json.str "TOK") (Json.str "app-1"), permReq (Json.str "TOK") (Json.str "obj-1"),
        notesReq (Json.str "TOK") (Json.str "obj-1")], .ok ()) ∧
    (main_run sampleEnv sampleCfgOwner).1.get? 4 =
      some (ownersReq (Json.str "TOK") (Json.str "obj-1") (Json.str "u-123")) :=
  ⟨(claim_C6_owner_steps_conditional.1 sampleEnv sampleCfg sampleScenario rfl).1,
   (claim_C6_owner_steps_conditional.2 sampleEnv sampleCfgOwner sampleScenarioOwner "jdoe"
      sampleUsersJson sampleUser (Json.str "u-123") [] rfl rfl ⟨by decide, by decide, rfl⟩
      rfl rfl ⟨by decide, rfl⟩).2⟩

theorem claim_C7_witness :
    graph_call sampleEnv "POST" "/applications" none none =
      ([mkReq (Json.str "TOK") "POST" "/applications" none none], .ok sampleAppJson) :=
  (claim_C7_graph_call_contract sampleEnv (Json.str "TOK") "POST" "/applications" none none
    rfl).2.1 sampleAppJson (by decide) (by decide) rfl

theorem claim_C8_witness :
    (main_run sampleEnv sampleCfg).1.get? 1 =
      some (secretReq (Json.str "TOK") (Json.str "obj-1")) ∧
    (secretReq (Json.str "TOK") (Json.str "obj-1")).url =
      GRAPH_BASE ++ "/applications/" ++ "obj-1" ++ "/addPassword" :=
  claim_C8_secret_addressed_by_object_id.1 sampleEnv sampleCfg sampleScenario rfl

theorem claim_C9_witness :
    redirect_uris_list ((none : Option String).getD "") = [] ∧
    redirect_uris_list " https://a.example/cb , ,https://b.example/cb" =
      ((pySplit " https://a.example/cb , ,https://b.example/cb" ',').map pyStrip).filter
        (fun u => u ≠ "") :=
  ⟨claim_C9_redirect_uri_parsing.2.1 none (Or.inl rfl),
   claim_C9_redirect_uri_parsing.1 " https://a.example/cb , ,https://b.example/cb"⟩

theorem claim_C10_witness :
    (resolve_user_by_mailnickname sampleEnv "jdoe").1 =
      [usersReq (Json.str "TOK") "jdoe"] ∧
    (usersReq (Json.str "TOK") "jdoe").params =
      some [("$filter", "mailNickname eq '" ++ "jdoe" ++ "'"),
            ("$select", "id,displayName,mailNickname")] ∧
    ("mailNickname eq '" ++ "jdoe" ++ "'").toList.count (Char.ofNat 39) =
      "jdoe".toList.count (Char.ofNat 39) + 2 :=
  claim_C10_filter_unescaped sampleEnv (Json.str "TOK") "jdoe" rfl

end CreateApp
